import Mathlib

/-!
Verification of the persistence layer of the RAG application
(`src/db.py`, `src/models.py`): a shallow embedding of the SQLite-backed
document / page / session / message store, including the citation
serialization contract of `create_message` / `get_messages_for_session`,
the unique index on `pages(doc_id, page_no)`, the cascading deletes, and
the placeholder `LIKE`-based page search.

Modelling conventions:
* Machine integers are `Nat` / `Int`; `DATETIME` timestamps are `Nat`
  (seconds); the float `score` of a citation is modelled as `Rat`
  (Python's `json.dumps` / `json.loads` round-trips floats exactly, so
  rationals preserve the serialization behaviour relevant here).
* Each table is a list of rows kept in rowid (insertion) order, as a
  SQLite table scan yields them; `AUTOINCREMENT` is an explicit
  per-table counter.
* `ORDER BY` is modelled as a stable insertion sort over the scan order.
* Python exceptions that escape an operation are `Except` errors; an
  operation that raises before `commit` leaves the store unchanged
  (the transaction is rolled back when the session closes).
-/

namespace RagDB

/-- Document processing status (`models.DocumentStatus`; stored as its
string value because of `use_enum_values`). -/
inductive DocumentStatus
  | NEW
  | PROCESSING
  | COMPLETED
  | ERROR
deriving DecidableEq, Repr

/-- Message author role (`models.MessageRole`). -/
inductive MessageRole
  | USER
  | ASSISTANT
deriving DecidableEq, Repr

/-- `models.Citation`: doc_name / page / score record embedded in a
message. `score` is a Python float, modelled as `Rat`. -/
structure Citation where
  doc_name : String
  page : Int
  score : Rat
deriving DecidableEq, Repr

/-- `models.Document` (pydantic model; optional fields default as in the
source: `bytes = 0`, `pages = 0`, `status = NEW`, `id`/`created_at`
absent until the row is read back). -/
structure Document where
  id : Option Nat := none
  name : String
  bytes : Int := 0
  pages : Int := 0
  sha256 : String
  status : DocumentStatus := .NEW
  created_at : Option Nat := none
deriving DecidableEq, Repr

/-- `models.Session`. -/
structure Session where
  id : Option Nat := none
  title : String
  created_at : Option Nat := none
deriving DecidableEq, Repr

/-- `models.Message`; `citations` is `Optional[List[Citation]] = None`. -/
structure Message where
  id : Option Nat := none
  session_id : Nat
  role : MessageRole
  content : String
  citations : Option (List Citation) := none
  created_at : Option Nat := none
deriving DecidableEq, Repr

/-- `models.Page`. -/
structure Page where
  id : Option Nat := none
  doc_id : Nat
  page_no : Int
  text : String
deriving DecidableEq, Repr

/-- The TEXT value held by the nullable `messages.citations` column,
classified by how `get_messages_for_session`'s read path
(`json.loads` followed by `[Citation(**c) for c in citations_data]`)
behaves on it:
* `enc cs` — the output of `json.dumps([c.dict() for c in cs])` for a
  citation list `cs`; `json.loads` inverts `json.dumps`, and each dict
  rebuilds its `Citation`, so decoding yields `cs`.
* `emptyText` — the empty string, which is falsy in Python, so the
  read path never attempts to decode it.
* `notJson s` — non-empty text that is not valid JSON: `json.loads`
  raises `JSONDecodeError` (a `ValueError`).
* `badFields s` — a JSON array of objects whose fields do not validate
  as a `Citation` (missing/ill-typed keys): pydantic raises
  `ValidationError`, a subclass of `ValueError`.
* `jsonNonRecords s` — valid JSON that is not an array of objects
  (e.g. the text `5`): iterating it or unpacking an element with `**`
  raises `TypeError`. -/
inductive StoredCitations
  | enc (cs : List Citation)
  | emptyText
  | notJson (s : String)
  | badFields (s : String)
  | jsonNonRecords (s : String)
deriving DecidableEq, Repr

/-- A row of the `documents` table. -/
structure DocumentRow where
  id : Nat
  name : String
  bytes : Int
  pages : Int
  sha256 : String
  status : DocumentStatus
  created_at : Nat
deriving DecidableEq, Repr

/-- A row of the `sessions` table. -/
structure SessionRow where
  id : Nat
  title : String
  created_at : Nat
deriving DecidableEq, Repr

/-- A row of the `messages` table. -/
structure MessageRow where
  id : Nat
  session_id : Nat
  role : MessageRole
  content : String
  citations : Option StoredCitations
  created_at : Nat
deriving DecidableEq, Repr

/-- A row of the `pages` table. -/
structure PageRow where
  id : Nat
  doc_id : Nat
  page_no : Int
  text : String
deriving DecidableEq, Repr

/-- The SQLite database state: four tables (rows in rowid order) and
their `AUTOINCREMENT` counters. -/
structure DB where
  documents : List DocumentRow := []
  sessions : List SessionRow := []
  messages : List MessageRow := []
  pages : List PageRow := []
  nextDocumentId : Nat := 1
  nextSessionId : Nat := 1
  nextMessageId : Nat := 1
  nextPageId : Nat := 1
deriving DecidableEq, Repr

/-- Python exceptions that can escape a store operation. -/
inductive PyError
  | integrityError
  | typeError
deriving DecidableEq, Repr

/-- Stable insertion of `x` into `l`: `x` is placed before the first
element `y` with `le x y`.  Used to model `ORDER BY` (stable over the
rowid scan order). -/
def insertOrd (le : α → α → Bool) (x : α) : List α → List α
  | [] => [x]
  | y :: ys => if le x y then x :: y :: ys else y :: insertOrd le x ys

/-- Stable insertion sort, modelling `ORDER BY` over the table scan. -/
def orderBy (le : α → α → Bool) : List α → List α
  | [] => []
  | x :: xs => insertOrd le x (orderBy le xs)

/-- SQLite `LIKE` pattern matching over character lists: `%` matches any
(possibly empty) run, `_` matches exactly one character, and plain
characters compare ASCII-case-insensitively (the SQLite default; Lean's
`Char.toLower` lowercases exactly the ASCII range). -/
def likeMatches : List Char → List Char → Bool
  | [], s => s.isEmpty
  | '%' :: ps, s => (s.tails).any fun t => likeMatches ps t
  | '_' :: ps, s =>
    match s with
    | [] => false
    | _ :: s' => likeMatches ps s'
  | p :: ps, s =>
    match s with
    | [] => false
    | c :: s' => (p.toLower == c.toLower) && likeMatches ps s'

/-- `t LIKE pat` for SQLite. -/
def sqliteLike (t pat : String) : Bool :=
  likeMatches pat.data t.data

/-- The row `db.create_document` inserts: name/bytes/pages/sha256/status
from the model, `created_at` filled by `DEFAULT CURRENT_TIMESTAMP`
(the `now` argument). -/
def newDocumentRow (doc : Document) (now : Nat) (db : DB) : DocumentRow :=
  { id := db.nextDocumentId, name := doc.name, bytes := doc.bytes,
    pages := doc.pages, sha256 := doc.sha256, status := doc.status,
    created_at := now }

/-- `db.create_document`: INSERT the row, return the generated id. -/
def create_document (doc : Document) (now : Nat) (db : DB) : Nat × DB :=
  (db.nextDocumentId,
    { db with
      documents := db.documents ++ [newDocumentRow doc now db],
      nextDocumentId := db.nextDocumentId + 1 })

/-- Rebuild a `Document` value from a fetched row, as the Python code
does field by field. -/
def docOfRow (r : DocumentRow) : Document :=
  { id := some r.id, name := r.name, bytes := r.bytes, pages := r.pages,
    sha256 := r.sha256, status := r.status, created_at := some r.created_at }

/-- `db.get_document`: SELECT ... WHERE id = :doc_id, `fetchone`. -/
def get_document (doc_id : Nat) (db : DB) : Option Document :=
  (db.documents.find? fun r => r.id == doc_id).map docOfRow

/-- `db.update_document_status`: UPDATE documents SET status WHERE id. -/
def update_document_status (doc_id : Nat) (status : DocumentStatus) (db : DB) : DB :=
  { db with
    documents := db.documents.map fun r =>
      if r.id == doc_id then { r with status := status } else r }

/-- `db.list_documents`: SELECT ... ORDER BY created_at DESC. -/
def list_documents (db : DB) : List Document :=
  (orderBy (fun a b => decide (b.created_at ≤ a.created_at)) db.documents).map docOfRow

/-- `db.delete_document`: DELETE the document's pages, then the document
row, in one transaction. -/
def delete_document (doc_id : Nat) (db : DB) : DB :=
  { db with
    pages := db.pages.filter fun p => p.doc_id != doc_id,
    documents := db.documents.filter fun r => r.id != doc_id }

/-- `db.create_page`: INSERT into `pages`; the UNIQUE index
`idx_pages_doc_page` on `(doc_id, page_no)` makes SQLite raise
`IntegrityError` on a duplicate key, in which case nothing is
committed. -/
def create_page (p : Page) (db : DB) : Except PyError (Nat × DB) :=
  if db.pages.any (fun r => r.doc_id == p.doc_id && r.page_no == p.page_no) then
    .error .integrityError
  else
    let rid := db.nextPageId
    .ok (rid,
      { db with
        pages := db.pages ++
          [{ id := rid, doc_id := p.doc_id, page_no := p.page_no, text := p.text }],
        nextPageId := rid + 1 })

/-- The store state after a `create_page` call: on success the committed
state, on an `IntegrityError` the unchanged state (the failed
transaction is rolled back). -/
def dbAfterCreatePage (p : Page) (db : DB) : DB :=
  match create_page p db with
  | .ok (_, db') => db'
  | .error _ => db

/-- Rebuild a `Page` value from a fetched row. -/
def pageOfRow (r : PageRow) : Page :=
  { id := some r.id, doc_id := r.doc_id, page_no := r.page_no, text := r.text }

/-- `db.get_pages_for_document`: SELECT ... WHERE doc_id ORDER BY page_no. -/
def get_pages_for_document (doc_id : Nat) (db : DB) : List Page :=
  (orderBy (fun a b => decide (a.page_no ≤ b.page_no))
    (db.pages.filter fun r => r.doc_id == doc_id)).map pageOfRow

/-- `db.search_pages`: SELECT ... WHERE text LIKE '%query%' LIMIT limit,
each hit paired with the constant dummy score 1.0.  A negative LIMIT
means "no limit" in SQLite. -/
def search_pages (query : String) (limit : Int) (db : DB) : List (Page × Rat) :=
  let rows := db.pages.filter fun r => sqliteLike r.text ("%" ++ query ++ "%")
  let rows := if limit < 0 then rows else rows.take limit.toNat
  rows.map fun r => (pageOfRow r, (1 : Rat))

/-- `db.create_session`. -/
def create_session (s : Session) (now : Nat) (db : DB) : Nat × DB :=
  let rid := db.nextSessionId
  (rid,
    { db with
      sessions := db.sessions ++ [{ id := rid, title := s.title, created_at := now }],
      nextSessionId := rid + 1 })

/-- `db.get_session`. -/
def get_session (session_id : Nat) (db : DB) : Option Session :=
  (db.sessions.find? fun r => r.id == session_id).map fun r =>
    { id := some r.id, title := r.title, created_at := some r.created_at }

/-- `db.list_sessions`: SELECT ... ORDER BY created_at DESC. -/
def list_sessions (db : DB) : List Session :=
  (orderBy (fun a b => decide (b.created_at ≤ a.created_at)) db.sessions).map fun r =>
    { id := some r.id, title := r.title, created_at := some r.created_at }

/-- The two DELETE statements of `db.delete_session`, in program order:
first the session's messages, then the session row. -/
def deleteSessionStmts (sid : Nat) : List (DB → DB) :=
  [ fun db => { db with messages := db.messages.filter fun m => m.session_id != sid },
    fun db => { db with sessions := db.sessions.filter fun s => s.id != sid } ]

/-- Run every statement of a transaction and commit. -/
def runTxn (db : DB) (stmts : List (DB → DB)) : DB :=
  stmts.foldl (fun d f => f d) db

/-- The externally observable state when the process fails after `k`
statements of the transaction: statements execute inside one
uncommitted transaction, so a crash before the final commit rolls every
statement back (other connections never see the intermediate states);
once all statements ran, the transaction commits. -/
def runTxnCrashAt (db : DB) (stmts : List (DB → DB)) (k : Nat) : DB :=
  if k < stmts.length then db else runTxn db stmts

/-- `db.delete_session`: both DELETEs inside one transaction, then commit. -/
def delete_session (sid : Nat) (db : DB) : DB :=
  runTxn db (deleteSessionStmts sid)

/-- The serialization step of `db.create_message`: `citations_json` is
NULL unless `message.citations` is truthy (a non-`None`, non-empty
list), in which case it is the JSON encoding of the list. -/
def serializeCitations : Option (List Citation) → Option StoredCitations
  | some cs => if cs.isEmpty then none else some (.enc cs)
  | none => none

/-- The row `db.create_message` inserts. -/
def newMessageRow (m : Message) (now : Nat) (db : DB) : MessageRow :=
  { id := db.nextMessageId, session_id := m.session_id, role := m.role,
    content := m.content, citations := serializeCitations m.citations,
    created_at := now }

/-- `db.create_message`: serialize the citations, INSERT the row,
return the generated id. -/
def create_message (m : Message) (now : Nat) (db : DB) : Nat × DB :=
  (db.nextMessageId,
    { db with
      messages := db.messages ++ [newMessageRow m now db],
      nextMessageId := db.nextMessageId + 1 })

/-- The per-row citation decoding of `get_messages_for_session`:
`citations = None; if row.citations: try json.loads / Citation(**c)
except (JSONDecodeError, ValueError): citations = None`.  A
`jsonNonRecords` value raises `TypeError`, which the `except` clause
does not catch, so it escapes the whole read. -/
def parseCitations : Option StoredCitations → Except PyError (Option (List Citation))
  | none => .ok none
  | some .emptyText => .ok none
  | some (.enc cs) => .ok (some cs)
  | some (.notJson _) => .ok none
  | some (.badFields _) => .ok none
  | some (.jsonNonRecords _) => .error .typeError

/-- `parseCitations` with the error case collapsed to "absent"; the
value the read loop produces for every row it survives. -/
def parseCitationsD (oc : Option StoredCitations) : Option (List Citation) :=
  match parseCitations oc with
  | .ok v => v
  | .error _ => none

/-- `true` iff decoding this citations column does not raise. -/
def parsesOk (oc : Option StoredCitations) : Bool :=
  match parseCitations oc with
  | .ok _ => true
  | .error _ => false

/-- Build the `Message` returned for a row (total form, used to state
what a successful read returns). -/
def rowToMessageD (r : MessageRow) : Message :=
  { id := some r.id, session_id := r.session_id, role := r.role,
    content := r.content, citations := parseCitationsD r.citations,
    created_at := some r.created_at }

/-- The body of `get_messages_for_session`'s loop: convert each fetched
row, propagating an uncaught exception from the first offending row. -/
def readMessages : List MessageRow → Except PyError (List Message)
  | [] => .ok []
  | r :: rs =>
    match parseCitations r.citations with
    | .error e => .error e
    | .ok cits =>
      match readMessages rs with
      | .error e => .error e
      | .ok ms =>
        .ok ({ id := some r.id, session_id := r.session_id, role := r.role,
               content := r.content, citations := cits,
               created_at := some r.created_at } :: ms)

/-- The comparator of `ORDER BY created_at ASC` on message rows. -/
def msgLe (a b : MessageRow) : Bool :=
  decide (a.created_at ≤ b.created_at)

/-- The rows `get_messages_for_session` fetches: WHERE session_id
ORDER BY created_at ASC. -/
def sessionRows (sid : Nat) (db : DB) : List MessageRow :=
  orderBy msgLe (db.messages.filter fun r => r.session_id == sid)

/-- `db.get_messages_for_session`. -/
def get_messages_for_session (sid : Nat) (db : DB) : Except PyError (List Message) :=
  readMessages (sessionRows sid db)

/-- The message list a successful read returns. -/
def msgsD (sid : Nat) (db : DB) : List Message :=
  (sessionRows sid db).map rowToMessageD

/-- `db.get_message_count_for_session`: SELECT COUNT(*). -/
def get_message_count_for_session (sid : Nat) (db : DB) : Nat :=
  (db.messages.filter fun r => r.session_id == sid).length

/-- `db.delete_message`. -/
def delete_message (message_id : Nat) (db : DB) : DB :=
  { db with messages := db.messages.filter fun m => m.id != message_id }

/-- Every message row of session `sid` decodes without raising — the
precondition for `get_messages_for_session sid` to succeed. -/
def sessionReadable (sid : Nat) (db : DB) : Prop :=
  ∀ r ∈ db.messages, r.session_id = sid → parsesOk r.citations = true

/-- A session row with this id exists. -/
def sessionInDB (sid : Nat) (db : DB) : Prop :=
  ∃ s ∈ db.sessions, s.id = sid

/-- The message rows belonging to session `sid`. -/
def sessionMessages (sid : Nat) (db : DB) : List MessageRow :=
  db.messages.filter fun m => m.session_id == sid

instance (sid : Nat) (db : DB) : Decidable (sessionReadable sid db) :=
  inferInstanceAs (Decidable (∀ r ∈ db.messages, r.session_id = sid → parsesOk r.citations = true))

instance (sid : Nat) (db : DB) : Decidable (sessionInDB sid db) :=
  inferInstanceAs (Decidable (∃ s ∈ db.sessions, s.id = sid))

/-- An observable state that breaks the cascade invariant relative to
the pre-delete state `pre`: either the session row is gone while some
of its messages remain, or the session row remains while its message
set already changed. -/
def brokenCascadeState (sid : Nat) (pre obs : DB) : Prop :=
  (¬ sessionInDB sid obs ∧ sessionMessages sid obs ≠ []) ∨
  (sessionInDB sid obs ∧ sessionMessages sid obs ≠ sessionMessages sid pre)

instance (sid : Nat) (pre obs : DB) : Decidable (brokenCascadeState sid pre obs) :=
  inferInstanceAs (Decidable (_ ∨ _))

/-! ### Concrete stores and records used to instantiate the theorems -/

/-- A store holding one page whose text is `"x"`. -/
def c2db : DB :=
  { pages := [{ id := 1, doc_id := 1, page_no := 1, text := "x" }], nextPageId := 2 }

/-- A store holding pages of two documents, used to exercise `search_pages`. -/
def w2db : DB :=
  { pages := [{ id := 1, doc_id := 1, page_no := 1, text := "alpha" },
              { id := 2, doc_id := 1, page_no := 2, text := "beta" },
              { id := 3, doc_id := 2, page_no := 1, text := "gamma" }],
    nextPageId := 4 }

/-- A store whose single message row carries citations text that is valid
JSON but not an array of records (the text `5`). -/
def c3db : DB :=
  { messages := [{ id := 1, session_id := 1, role := .USER, content := "hi",
                   citations := some (.jsonNonRecords "5"), created_at := 0 }],
    nextMessageId := 2 }

/-- A store whose single message row carries citations text that is not
valid JSON. -/
def w3db : DB :=
  { sessions := [{ id := 1, title := "t", created_at := 0 }],
    messages := [{ id := 1, session_id := 1, role := .ASSISTANT, content := "hi",
                   citations := some (.notJson "oops"), created_at := 0 }],
    nextSessionId := 2, nextMessageId := 2 }

/-- A store holding one page with key `(1, 1)`. -/
def w4db : DB :=
  { documents := [{ id := 1, name := "a.pdf", bytes := 10, pages := 1,
                    sha256 := "h", status := .COMPLETED, created_at := 0 }],
    pages := [{ id := 1, doc_id := 1, page_no := 1, text := "p1" }],
    nextDocumentId := 2, nextPageId := 2 }

/-- A duplicate of the page key already present in `w4db`. -/
def w4page : Page := { doc_id := 1, page_no := 1, text := "p1 again" }

/-- A store holding one document (id 1) with a page; document id 7 does
not exist. -/
def w5db : DB :=
  { documents := [{ id := 1, name := "a.pdf", bytes := 10, pages := 1,
                    sha256 := "h", status := .NEW, created_at := 0 }],
    pages := [{ id := 1, doc_id := 1, page_no := 1, text := "p1" }],
    nextDocumentId := 2, nextPageId := 2 }

/-- A store holding session 1 with two messages. -/
def w6db : DB :=
  { sessions := [{ id := 1, title := "chat", created_at := 0 }],
    messages := [{ id := 1, session_id := 1, role := .USER, content := "q",
                   citations := none, created_at := 0 },
                 { id := 2, session_id := 1, role := .ASSISTANT, content := "a",
                   citations := none, created_at := 1 }],
    nextSessionId := 2, nextMessageId := 3 }

/-- A valid document record (name and sha256 present, the rest left to
the model's defaults). -/
def w8doc : Document := { name := "a.pdf", sha256 := "abc123" }

/-- The empty store. -/
def emptyDB : DB := {}

/-- A message with a single non-empty citation list. -/
def w1msg : Message :=
  { session_id := 1, role := .ASSISTANT, content := "answer",
    citations := some [{ doc_name := "a.pdf", page := 3, score := 1 }] }

/-- A message with the citations field omitted. -/
def w9msg : Message :=
  { session_id := 1, role := .USER, content := "question" }

/-- A message whose citations field is the empty list. -/
def w10msg : Message :=
  { session_id := 1, role := .ASSISTANT, content := "no sources",
    citations := some [] }

/-! ### Generic lemmas about the `ORDER BY` model -/

theorem mem_insertOrd {le : α → α → Bool} {x a : α} {l : List α} :
    a ∈ insertOrd le x l ↔ a = x ∨ a ∈ l := by
  induction l with
  | nil => simp [insertOrd]
  | cons y ys ih =>
    cases h : le x y with
    | true => simp [insertOrd, h]
    | false =>
      simp only [insertOrd, h, Bool.false_eq_true, if_false, List.mem_cons, ih]
      tauto

theorem mem_orderBy {le : α → α → Bool} {a : α} {l : List α} :
    a ∈ orderBy le l ↔ a ∈ l := by
  induction l with
  | nil => simp [orderBy]
  | cons x xs ih => simp [orderBy, mem_insertOrd, ih]

/-! ### Lemmas about the message read path -/

theorem parsesOk_serialize (c : Option (List Citation)) :
    parsesOk (serializeCitations c) = true := by
  cases c with
  | none => rfl
  | some cs =>
    by_cases h : cs.isEmpty <;> simp [serializeCitations, h, parsesOk, parseCitations]

theorem rowToMessage_of_parse {r : MessageRow} {v : Option (List Citation)}
    (h : parseCitations r.citations = .ok v) :
    rowToMessageD r =
      { id := some r.id, session_id := r.session_id, role := r.role,
        content := r.content, citations := v, created_at := some r.created_at } := by
  simp [rowToMessageD, parseCitationsD, h]

theorem readMessages_ok {l : List MessageRow}
    (h : ∀ r ∈ l, parsesOk r.citations = true) :
    readMessages l = .ok (l.map rowToMessageD) := by
  induction l with
  | nil => rfl
  | cons r rs ih =>
    have hr := h r (by simp)
    have hrs : ∀ x ∈ rs, parsesOk x.citations = true := fun x hx => h x (by simp [hx])
    cases hcp : parseCitations r.citations with
    | error e => rw [parsesOk, hcp] at hr; simp at hr
    | ok v =>
      simp only [readMessages, hcp, ih hrs, List.map_cons,
        rowToMessage_of_parse hcp]

theorem mem_sessionRows {sid : Nat} {db : DB} {r : MessageRow} :
    r ∈ sessionRows sid db ↔ r ∈ db.messages ∧ r.session_id = sid := by
  rw [sessionRows, mem_orderBy, List.mem_filter]
  simp

theorem get_messages_ok {sid : Nat} {db : DB} (h : sessionReadable sid db) :
    get_messages_for_session sid db = .ok (msgsD sid db) := by
  apply readMessages_ok
  intro r hr
  have hr' := mem_sessionRows.mp hr
  exact h r hr'.1 hr'.2

/-- Creating a message never makes a readable session unreadable: the
freshly stored citations column always decodes. -/
theorem sessionReadable_create_message {sid : Nat} {m : Message} {now : Nat} {db : DB}
    (h : sessionReadable sid db) :
    sessionReadable sid (create_message m now db).2 := by
  intro r hr hsid
  rcases List.mem_append.mp hr with hold | hnew
  · exact h r hold hsid
  · have hr0 : r = newMessageRow m now db := by simpa using hnew
    subst hr0
    exact parsesOk_serialize m.citations

/-! ### Claim theorems -/

/-- Claim C8: creating a valid document returns a generated id (with
`status` defaulting to NEW when unset), and fetching that id yields a
record equal to the input except for the generated id and timestamp. -/
theorem create_then_get_document (doc : Document) (now : Nat) (db : DB)
    (hfresh : ∀ r ∈ db.documents, r.id ≠ db.nextDocumentId) :
    get_document (create_document doc now db).1 (create_document doc now db).2 =
      some { doc with id := some (create_document doc now db).1, created_at := some now } ∧
    ({ name := doc.name, sha256 := doc.sha256 : Document }).status = DocumentStatus.NEW := by
  refine ⟨?_, rfl⟩
  have hnone : db.documents.find? (fun r => r.id == db.nextDocumentId) = none := by
    rw [List.find?_eq_none]
    intro r hr
    simpa using hfresh r hr
  simp [get_document, create_document, List.find?_append, hnone, newDocumentRow, docOfRow]

/-- Instance of `create_then_get_document` at a concrete document and
the empty store. -/
theorem create_then_get_document_witness :
    get_document (create_document w8doc 5 emptyDB).1 (create_document w8doc 5 emptyDB).2 =
      some { w8doc with id := some (create_document w8doc 5 emptyDB).1,
                        created_at := some 5 } ∧
    ({ name := w8doc.name, sha256 := w8doc.sha256 : Document }).status = DocumentStatus.NEW :=
  create_then_get_document w8doc 5 emptyDB (by decide)

/-- Claim C5: `delete_document` removes all pages of the document and
the document row; afterwards the document's page list is empty and the
document is absent from `list_documents`; deleting a non-existent id
(no document row and no pages with that id) leaves the store
unchanged. -/
theorem delete_document_spec (doc_id : Nat) (db : DB) :
    get_pages_for_document doc_id (delete_document doc_id db) = [] ∧
    (∀ d ∈ list_documents (delete_document doc_id db), d.id ≠ some doc_id) ∧
    (db.documents.all (fun r => r.id != doc_id) = true →
     db.pages.all (fun r => r.doc_id != doc_id) = true →
     delete_document doc_id db = db) := by
  refine ⟨?_, ?_, ?_⟩
  · have hnil : ((delete_document doc_id db).pages.filter fun r => r.doc_id == doc_id) = [] := by
      rw [delete_document]
      rw [List.filter_filter]
      rw [List.filter_eq_nil_iff]
      intro a _
      simp
    rw [get_pages_for_document, hnil]
    rfl
  · intro d hd
    rw [list_documents, List.mem_map] at hd
    obtain ⟨r, hr, rfl⟩ := hd
    have hr' := mem_orderBy.mp hr
    rw [delete_document] at hr'
    rw [List.mem_filter] at hr'
    have : r.id ≠ doc_id := by simpa using hr'.2
    simp [docOfRow, this]
  · intro hdoc hpage
    rw [List.all_eq_true] at hdoc hpage
    rw [delete_document]
    rw [List.filter_eq_self.mpr hpage, List.filter_eq_self.mpr hdoc]

/-- Instance of `delete_document_spec` at a store where document id 7
does not exist. -/
theorem delete_document_spec_witness :
    get_pages_for_document 7 (delete_document 7 w5db) = [] ∧
    (∀ d ∈ list_documents (delete_document 7 w5db), d.id ≠ some 7) ∧
    delete_document 7 w5db = w5db :=
  ⟨(delete_document_spec 7 w5db).1, (delete_document_spec 7 w5db).2.1,
    (delete_document_spec 7 w5db).2.2 (by decide) (by decide)⟩

/-- Claim C4: inserting a page whose `(doc_id, page_no)` key is already
present fails with the unique-index constraint error, the store is
unchanged, and the table still holds exactly one row for that key. -/
theorem create_page_duplicate_fails (p : Page) (db : DB)
    (h : (db.pages.filter fun r => r.doc_id == p.doc_id && r.page_no == p.page_no).length = 1) :
    create_page p db = .error .integrityError ∧
    dbAfterCreatePage p db = db ∧
    ((dbAfterCreatePage p db).pages.filter fun r =>
        r.doc_id == p.doc_id && r.page_no == p.page_no).length = 1 := by
  have hne : (db.pages.filter fun r => r.doc_id == p.doc_id && r.page_no == p.page_no) ≠ [] := by
    intro hnil
    rw [hnil] at h
    simp at h
  obtain ⟨x, hx⟩ := List.exists_mem_of_ne_nil _ hne
  rw [List.mem_filter] at hx
  have hany : db.pages.any (fun r => r.doc_id == p.doc_id && r.page_no == p.page_no) = true :=
    List.any_eq_true.mpr ⟨x, hx.1, hx.2⟩
  have herr : create_page p db = .error .integrityError := by
    rw [create_page, if_pos hany]
  have hsame : dbAfterCreatePage p db = db := by
    rw [dbAfterCreatePage, herr]
  exact ⟨herr, hsame, by rw [hsame]; exact h⟩

/-- Instance of `create_page_duplicate_fails` at a store already holding
page `(1, 1)`. -/
theorem create_page_duplicate_fails_witness :
    create_page w4page w4db = .error .integrityError ∧
    dbAfterCreatePage w4page w4db = w4db ∧
    ((dbAfterCreatePage w4page w4db).pages.filter fun r =>
        r.doc_id == w4page.doc_id && r.page_no == w4page.page_no).length = 1 :=
  create_page_duplicate_fails w4page w4db (by decide)

/-- Claim C6: `delete_session` removes the session row and all its
messages atomically: whatever the crash point, the observable state is
never one in which the session is gone while one of its messages
remains, or its messages changed while the session row remains; the
committed state has neither the session nor its messages. -/
theorem delete_session_atomic (sid : Nat) (db : DB) (k : Nat)
    (h : sessionInDB sid db) :
    ¬ brokenCascadeState sid db (runTxnCrashAt db (deleteSessionStmts sid) k) ∧
    ¬ sessionInDB sid (delete_session sid db) ∧
    sessionMessages sid (delete_session sid db) = [] := by
  have hfinal : delete_session sid db =
      { db with messages := db.messages.filter fun m => m.session_id != sid,
                sessions := db.sessions.filter fun s => s.id != sid } := by
    rfl
  have hnosess : ¬ sessionInDB sid (delete_session sid db) := by
    rw [hfinal]
    rintro ⟨s, hs, rfl⟩
    rw [List.mem_filter] at hs
    simp at hs
  have hnomsg : sessionMessages sid (delete_session sid db) = [] := by
    rw [hfinal, sessionMessages]
    rw [List.filter_filter, List.filter_eq_nil_iff]
    intro a _
    simp
  refine ⟨?_, hnosess, hnomsg⟩
  rw [runTxnCrashAt]
  by_cases hk : k < (deleteSessionStmts sid).length
  · rw [if_pos hk]
    rintro (⟨habs, _⟩ | ⟨_, hne⟩)
    · exact habs h
    · exact hne rfl
  · rw [if_neg hk]
    rintro (⟨_, hne⟩ | ⟨habs, _⟩)
    · exact hne hnomsg
    · exact hnosess habs

/-- Instance of `delete_session_atomic` with a crash after the first
DELETE statement. -/
theorem delete_session_atomic_witness :
    ¬ brokenCascadeState 1 w6db (runTxnCrashAt w6db (deleteSessionStmts 1) 1) ∧
    ¬ sessionInDB 1 (delete_session 1 w6db) ∧
    sessionMessages 1 (delete_session 1 w6db) = [] :=
  delete_session_atomic 1 w6db 1 (by decide)

/-- Claim C1: a message created with a non-empty citation list, read
back for its session, reproduces a citation list equal to the input
(doc_name, page and score round-trip through the serialization). -/
theorem create_message_citations_roundtrip (m : Message) (cs : List Citation)
    (now : Nat) (db : DB)
    (hcs : m.citations = some cs) (hne : cs ≠ [])
    (hsafe : sessionReadable m.session_id db) :
    get_messages_for_session m.session_id (create_message m now db).2 =
      .ok (msgsD m.session_id (create_message m now db).2) ∧
    (msgsD m.session_id (create_message m now db).2).any
      (fun msg => decide (msg.id = some (create_message m now db).1 ∧
        msg.citations = some cs)) = true := by
  refine ⟨get_messages_ok (sessionReadable_create_message hsafe), ?_⟩
  rw [List.any_eq_true]
  refine ⟨rowToMessageD (newMessageRow m now db), ?_, ?_⟩
  · rw [msgsD]
    refine List.mem_map_of_mem _ (mem_sessionRows.mpr ⟨?_, rfl⟩)
    simp [create_message]
  · have hemp : cs.isEmpty = false := by
      rcases cs with _ | ⟨c, cs'⟩
      · exact absurd rfl hne
      · rfl
    have hpar : parseCitations (newMessageRow m now db).citations = .ok (some cs) := by
      simp [newMessageRow, serializeCitations, hcs, hemp, parseCitations]
    rw [decide_eq_true_eq]
    exact ⟨by simp [rowToMessageD, newMessageRow, create_message],
      by simp [rowToMessage_of_parse hpar]⟩

/-- Instance of `create_message_citations_roundtrip` at a message with
one citation and the empty store. -/
theorem create_message_citations_roundtrip_witness :
    get_messages_for_session w1msg.session_id (create_message w1msg 5 emptyDB).2 =
      .ok (msgsD w1msg.session_id (create_message w1msg 5 emptyDB).2) ∧
    (msgsD w1msg.session_id (create_message w1msg 5 emptyDB).2).any
      (fun msg => decide (msg.id = some (create_message w1msg 5 emptyDB).1 ∧
        msg.citations = some [{ doc_name := "a.pdf", page := 3, score := 1 }])) = true :=
  create_message_citations_roundtrip w1msg _ 5 emptyDB rfl (by decide) (by decide)

/-- Claim C9: a message created with the citations field omitted stores
a NULL citations column (not an encoding of an empty list) and reads
back with citations absent. -/
theorem create_message_omitted_citations (m : Message) (now : Nat) (db : DB)
    (hc : m.citations = none) (hsafe : sessionReadable m.session_id db) :
    (newMessageRow m now db).citations = none ∧
    (create_message m now db).2.messages = db.messages ++ [newMessageRow m now db] ∧
    get_messages_for_session m.session_id (create_message m now db).2 =
      .ok (msgsD m.session_id (create_message m now db).2) ∧
    (msgsD m.session_id (create_message m now db).2).any
      (fun msg => decide (msg.id = some (create_message m now db).1 ∧
        msg.citations = none)) = true := by
  have hnull : (newMessageRow m now db).citations = none := by
    simp [newMessageRow, serializeCitations, hc]
  refine ⟨hnull, rfl, get_messages_ok (sessionReadable_create_message hsafe), ?_⟩
  rw [List.any_eq_true]
  refine ⟨rowToMessageD (newMessageRow m now db), ?_, ?_⟩
  · rw [msgsD]
    refine List.mem_map_of_mem _ (mem_sessionRows.mpr ⟨?_, rfl⟩)
    simp [create_message]
  · have hpar : parseCitations (newMessageRow m now db).citations = .ok none := by
      rw [hnull]
      rfl
    rw [decide_eq_true_eq]
    exact ⟨by simp [rowToMessageD, newMessageRow, create_message],
      by simp [rowToMessage_of_parse hpar]⟩

/-- Instance of `create_message_omitted_citations` at the empty store. -/
theorem create_message_omitted_citations_witness :
    (newMessageRow w9msg 5 emptyDB).citations = none ∧
    (create_message w9msg 5 emptyDB).2.messages =
      emptyDB.messages ++ [newMessageRow w9msg 5 emptyDB] ∧
    get_messages_for_session w9msg.session_id (create_message w9msg 5 emptyDB).2 =
      .ok (msgsD w9msg.session_id (create_message w9msg 5 emptyDB).2) ∧
    (msgsD w9msg.session_id (create_message w9msg 5 emptyDB).2).any
      (fun msg => decide (msg.id = some (create_message w9msg 5 emptyDB).1 ∧
        msg.citations = none)) = true :=
  create_message_omitted_citations w9msg 5 emptyDB rfl (by decide)

/-- Claim C10: a message created with an explicit empty citation list
is stored with a NULL citations column (Python truthiness makes the
empty list indistinguishable from omission) and reads back with
citations absent. -/
theorem create_message_empty_citations (m : Message) (now : Nat) (db : DB)
    (hc : m.citations = some []) (hsafe : sessionReadable m.session_id db) :
    (newMessageRow m now db).citations = none ∧
    (create_message m now db).2.messages = db.messages ++ [newMessageRow m now db] ∧
    get_messages_for_session m.session_id (create_message m now db).2 =
      .ok (msgsD m.session_id (create_message m now db).2) ∧
    (msgsD m.session_id (create_message m now db).2).any
      (fun msg => decide (msg.id = some (create_message m now db).1 ∧
        msg.citations = none)) = true := by
  have hnull : (newMessageRow m now db).citations = none := by
    simp [newMessageRow, serializeCitations, hc]
  refine ⟨hnull, rfl, get_messages_ok (sessionReadable_create_message hsafe), ?_⟩
  rw [List.any_eq_true]
  refine ⟨rowToMessageD (newMessageRow m now db), ?_, ?_⟩
  · rw [msgsD]
    refine List.mem_map_of_mem _ (mem_sessionRows.mpr ⟨?_, rfl⟩)
    simp [create_message]
  · have hpar : parseCitations (newMessageRow m now db).citations = .ok none := by
      rw [hnull]
      rfl
    rw [decide_eq_true_eq]
    exact ⟨by simp [rowToMessageD, newMessageRow, create_message],
      by simp [rowToMessage_of_parse hpar]⟩

/-- Instance of `create_message_empty_citations` at the empty store. -/
theorem create_message_empty_citations_witness :
    (newMessageRow w10msg 5 emptyDB).citations = none ∧
    (create_message w10msg 5 emptyDB).2.messages =
      emptyDB.messages ++ [newMessageRow w10msg 5 emptyDB] ∧
    get_messages_for_session w10msg.session_id (create_message w10msg 5 emptyDB).2 =
      .ok (msgsD w10msg.session_id (create_message w10msg 5 emptyDB).2) ∧
    (msgsD w10msg.session_id (create_message w10msg 5 emptyDB).2).any
      (fun msg => decide (msg.id = some (create_message w10msg 5 emptyDB).1 ∧
        msg.citations = none)) = true :=
  create_message_empty_citations w10msg 5 emptyDB rfl (by decide)

/-- Refutation of claim C2 as stated: `search_pages "_" 10` on a store
whose only page text is `"x"` returns that page (the `_` in the LIKE
pattern matches any single character), yet `"_"` is not a substring of
`"x"`. -/
theorem search_pages_substring_counterexample :
    search_pages "_" 10 c2db =
      [({ id := some 1, doc_id := 1, page_no := 1, text := "x" }, 1)] ∧
    ¬ ("_".data <:+: "x".data) :=
  ⟨rfl, by decide⟩

/-- Claim C2 (amended): for a non-negative limit, `search_pages` returns
at most `limit` results, every returned page's text matches the query
under SQLite LIKE containment (ASCII-case-insensitive, with `%` and `_`
of the query acting as wildcards), and every result carries the
constant score 1.0. -/
theorem search_pages_spec (query : String) (limit : Int) (db : DB) (h : 0 ≤ limit) :
    (search_pages query limit db).length ≤ limit.toNat ∧
    (search_pages query limit db).all
      (fun pr => sqliteLike pr.1.text ("%" ++ query ++ "%") && decide (pr.2 = 1)) = true := by
  have hneg : ¬ limit < 0 := by omega
  have hrw : search_pages query limit db =
      ((db.pages.filter fun r => sqliteLike r.text ("%" ++ query ++ "%")).take
        limit.toNat).map fun r => (pageOfRow r, (1 : Rat)) := by
    rw [search_pages]
    simp only [if_neg hneg]
  constructor
  · rw [hrw, List.length_map]
    exact List.length_take_le _ _
  · rw [hrw, List.all_eq_true]
    intro pr hpr
    rw [List.mem_map] at hpr
    obtain ⟨r, hr, rfl⟩ := hpr
    have hr' := List.mem_of_mem_take hr
    rw [List.mem_filter] at hr'
    simp [pageOfRow, hr'.2]

/-- Instance of `search_pages_spec` at a concrete query and store. -/
theorem search_pages_spec_witness :
    (search_pages "a" 2 w2db).length ≤ (2 : Int).toNat ∧
    (search_pages "a" 2 w2db).all
      (fun pr => sqliteLike pr.1.text ("%" ++ "a" ++ "%") && decide (pr.2 = 1)) = true :=
  search_pages_spec "a" 2 w2db (by decide)

/-- Refutation of claim C3 as stated: a stored citations text that is
valid JSON but not an array of records (here the text `5`) raises an
uncaught `TypeError`, so reading the whole session fails instead of
returning the message with citations absent. -/
theorem malformed_citations_fail_read :
    get_messages_for_session 1 c3db = .error .typeError := rfl

/-- Claim C3 (amended): when every stored citations text of the table
decodes without raising an uncaught exception — in particular when any
malformed text is either invalid JSON (`JSONDecodeError`) or an array
of records with invalid fields (`ValidationError`, a `ValueError`),
both caught — the read succeeds and returns every message of the
session, and those caught-malformed rows decode to absent citations. -/
theorem malformed_citations_recovered (db : DB) (sid : Nat) (s : String)
    (h : sessionReadable sid db) :
    get_messages_for_session sid db = .ok (msgsD sid db) ∧
    parseCitations (some (.notJson s)) = .ok none ∧
    parseCitations (some (.badFields s)) = .ok none ∧
    parseCitationsD (some (.notJson s)) = none ∧
    parseCitationsD (some (.badFields s)) = none :=
  ⟨get_messages_ok h, rfl, rfl, rfl, rfl⟩

/-- Instance of `malformed_citations_recovered` at a store whose single
message row holds citations text that is not valid JSON. -/
theorem malformed_citations_recovered_witness :
    get_messages_for_session 1 w3db = .ok (msgsD 1 w3db) ∧
    parseCitations (some (.notJson "oops")) = .ok none ∧
    parseCitations (some (.badFields "oops")) = .ok none ∧
    parseCitationsD (some (.notJson "oops")) = none ∧
    parseCitationsD (some (.badFields "oops")) = none :=
  malformed_citations_recovered w3db 1 "oops" (by decide)

end RagDB
